import Mathlib

/-
Shallow embedding of src/stripe_gross.5m.py, a single-file status-bar script
that fetches the day of Stripe balance transactions, aggregates per-currency
totals, maintains a small notification cache, synthesizes a coin sound, and
renders a line-oriented text menu.  External effects (subprocess, network,
filesystem, audio) are modelled by explicit inputs and outputs: the secret
subprocess becomes a `SubprocessOutcome` value, the paginated HTTP API becomes
the list of pages it serves in order, the cache file becomes an
`Option String`, and printing becomes a returned `List String` of lines.
-/

namespace StripeGross

/-- Outcome of the `subprocess.run` call in `get_api_key` (lines 20 to 29).
`completed stdout` models a run that returned (with any exit code, since
`check=True` is not passed, a failing command simply yields its output),
and `raised` models `TimeoutExpired` or any other exception, all of which the
source catches with a bare `except Exception`. -/
inductive SubprocessOutcome where
  | completed (stdout : String)
  | raised
deriving DecidableEq

/-- Models the Python `str.strip()` with no argument: remove leading and
trailing whitespace characters. -/
def pyStrip (s : String) : String :=
  String.mk ((s.data.dropWhile Char.isWhitespace).reverse.dropWhile
    Char.isWhitespace).reverse

/-- Embeds `get_api_key` (lines 20 to 29): strip the stdout of the lookup
command; return it when non-empty, otherwise `none`; every exception path
also returns `none`.  The Lean function is total, which models the
"never raises to its caller" contract. -/
def get_api_key (o : SubprocessOutcome) : Option String :=
  match o with
  | SubprocessOutcome.raised => none
  | SubprocessOutcome.completed out =>
    if pyStrip out = "" then none else some (pyStrip out)

/-- Embeds the set `GROSS_VOLUME_TYPES = {"charge", "payment"}` (line 32). -/
def GROSS_VOLUME_TYPES : List String := ["charge", "payment"]

/-- A balance-transaction record as consumed by `fetch_gross_volume`:
the fields `id`, `type`, `currency`, `amount` of each JSON object. -/
structure Transaction where
  id : String
  type : String
  currency : String
  amount : Int
deriving DecidableEq

/-- One page of the API response: the `data` list and the `has_more` flag. -/
structure Page where
  data : List Transaction
  has_more : Bool
deriving DecidableEq

/-- One HTTP request issued by the fetch loop, identified by the pagination
cursor it carries (`starting_after`, absent on the first request). -/
structure Request where
  starting_after : Option String
deriving DecidableEq

/-- The two ways the modelled fetch loop can fail: `indexError` models the
Python `IndexError` raised by `data["data"][-1]` on an empty list, and
`noResponse` models the server list being exhausted while the loop still
wants another page. -/
inductive FetchError where
  | indexError
  | noResponse
deriving DecidableEq

/-- Lookup in the totals dict with default 0, embedding `totals.get(cur, 0)`
(line 114). -/
def getD : List (String × Int) → String → Int
  | [], _ => 0
  | (k2, v2) :: rest, c => if k2 = c then v2 else getD rest c

/-- Assignment `totals[cur] = v` on the dict modelled as an association list:
replace the binding in place when the key is present, append it otherwise. -/
def dictSet : List (String × Int) → String → Int → List (String × Int)
  | [], k, v => [(k, v)]
  | (k2, v2) :: rest, k, v =>
    if k2 = k then (k, v) :: rest else (k2, v2) :: dictSet rest k v

/-- Embeds the per-record body of the aggregation loop (lines 112 to 114):
when the kind is accepted, uppercase the currency and add the amount to its
running total; otherwise leave the totals unchanged. -/
def processTx (totals : List (String × Int)) (tx : Transaction) : List (String × Int) :=
  if tx.type ∈ GROSS_VOLUME_TYPES then
    dictSet totals tx.currency.toUpper (getD totals tx.currency.toUpper + tx.amount)
  else totals

/-- Embeds the `for tx in data["data"]` loop (lines 111 to 114) over one page
of records. -/
def processPage (totals : List (String × Int)) (txs : List Transaction) : List (String × Int) :=
  txs.foldl processTx totals

/-- Embeds the Python expression `data["data"][-1]` (line 118) as a partial
last-element lookup: `none` exactly when the list is empty, in which case the
source raises `IndexError`. -/
def lastRecord : List Transaction → Option Transaction
  | [] => none
  | [tx] => some tx
  | _ :: tx :: rest => lastRecord (tx :: rest)

/-- The Boolean predicate selecting, for a display key `c`, the records that
the aggregation loop adds into `totals[c]`: accepted kind and currency whose
uppercase form is `c`. -/
def qualifies (c : String) (tx : Transaction) : Bool :=
  decide (tx.type ∈ GROSS_VOLUME_TYPES) && decide (tx.currency.toUpper = c)

/-- Embeds the `while True` pagination loop of `fetch_gross_volume`
(lines 97 to 120).  The network is replaced by `pages`, the list of
responses the API serves in order; the function returns the list of requests
the loop issues (each recorded by the cursor it carries) together with either
the final totals or the exception that ends the loop.  Each iteration
aggregates the page, stops when `has_more` is false, and otherwise takes the
id of the last record of the page as the next cursor. -/
def fetchPages : List Page → Option String → List (String × Int) →
    List Request × Except FetchError (List (String × Int))
  | [], cursor, _ => ([Request.mk cursor], Except.error FetchError.noResponse)
  | page :: rest, cursor, totals =>
    if page.has_more then
      match lastRecord page.data with
      | none => ([Request.mk cursor], Except.error FetchError.indexError)
      | some last =>
        (Request.mk cursor ::
            (fetchPages rest (some last.id) (processPage totals page.data)).1,
          (fetchPages rest (some last.id) (processPage totals page.data)).2)
    else
      ([Request.mk cursor], Except.ok (processPage totals page.data))

/-- Embeds `fetch_gross_volume` (lines 91 to 120): the loop starts with an
empty totals dict and no cursor (`starting_after = None`). -/
def fetch_gross_volume (pages : List Page) :
    List Request × Except FetchError (List (String × Int)) :=
  fetchPages pages none []

/-- The sequence of requests the loop is expected to issue against a list of
served pages: the first carries the given cursor, each later one carries the
id of the last record of the page before it. -/
def expectedReqs : Option String → List Page → List Request
  | _, [] => []
  | cursor, p :: rest =>
    Request.mk cursor :: expectedReqs ((lastRecord p.data).map Transaction.id) rest

/-- Inserts the thousands separators of the Python format spec `:,` into a
reversed digit string: after every three digits (counted from the right of
the original string) a comma is placed. -/
def groupRev : List Char → List Char
  | a :: b :: c :: d :: rest => a :: b :: c :: ',' :: groupRev (d :: rest)
  | l => l

/-- Groups the digits of a decimal string in threes with commas, as the
Python format spec `:,` does for the integer part. -/
def groupThousands (s : String) : String :=
  String.mk (groupRev s.data.reverse).reverse

/-- Embeds `format_amount` (lines 123 to 126): `amount_minor / 100` rendered
by the format spec `:,.2f` and followed by a space and the currency argument
exactly as passed.  The Python float division and float formatting are
modelled as exact decimal arithmetic: the quotient of an integer by 100 has
exactly two fraction digits, so `:,.2f` performs no rounding, and the double
rounding of `/ 100` is invisible after formatting for all amounts of
realistic magnitude. -/
def format_amount (amount_minor : Int) (currency : String) : String :=
  let a := amount_minor.natAbs
  let sign := if amount_minor < 0 then "-" else ""
  let whole := a / 100
  let frac := a % 100
  let fracStr := (if frac < 10 then "0" else "") ++ toString frac
  sign ++ groupThousands (toString whole) ++ "." ++ fracStr ++ " " ++ currency

/-- Digit-and-underscore tail of the Python `int()` grammar: after the first
digit, further digits may be separated by single underscores.  Any other
character, a trailing underscore, or a doubled underscore is a `ValueError`,
modelled as `none`. -/
def pyIntCore (acc : Nat) : List Char → Option Nat
  | [] => some acc
  | c :: rest =>
    if c.isDigit then pyIntCore (acc * 10 + (c.toNat - 48)) rest
    else if c = '_' then
      match rest with
      | [] => none
      | d :: rest2 =>
        if d.isDigit then pyIntCore (acc * 10 + (d.toNat - 48)) rest2 else none
    else none

/-- Models the Python `int()` conversion applied to an already stripped
string (ASCII digits, optional sign, optional single underscores between
digits); `none` models `ValueError`. -/
def pyInt (s : String) : Option Int :=
  match s.data with
  | [] => none
  | '-' :: rest =>
    match rest with
    | [] => none
    | c :: _ =>
      if c.isDigit then (pyIntCore 0 rest).map (fun n => -(n : Int)) else none
  | '+' :: rest =>
    match rest with
    | [] => none
    | c :: _ =>
      if c.isDigit then (pyIntCore 0 rest).map (fun n => (n : Int)) else none
  | c :: rest =>
    if c.isDigit then (pyIntCore 0 (c :: rest)).map (fun n => (n : Int)) else none

/-- Embeds lines 78 to 81 of `check_and_notify`: the previous total is
`int(LAST_AMOUNT_FILE.read_text().strip())`, with a missing file (`none`) or
unparsable content collapsing to 0 through the caught exceptions. -/
def readPrevious (cache : Option String) : Int :=
  match cache with
  | none => 0
  | some s =>
    match pyInt (pyStrip s) with
    | none => 0
    | some v => v

/-- Embeds `check_and_notify` (lines 75 to 88) as a pure function from the
freshly computed totals and the prior cache-file content (`none` when the
file is absent) to the pair of: whether the coin sound is played, and the
string unconditionally written back to the cache file.  The directory
creation of line 87 is a filesystem side effect with no observable value and
is not modelled. -/
def check_and_notify (totals : List (String × Int)) (cache : Option String) :
    Bool × String :=
  let current : Int := (totals.map Prod.snd).sum
  let previous := readPrevious cache
  (decide (previous < current) && decide (0 < previous), toString current)

/-- Sample count of `generate_coin_sound` (line 42):
`int(sample_rate * duration)` with sample rate 44100 and duration 0.4. -/
def n_samples : Nat := 17640

/-- The decimal value of the double constant `math.pi` used by the source
through `math.sin(2 * math.pi * f * t)`. -/
def piQ : ℚ := 3141592653589793 / 1000000000000000

/-- Truncation toward zero, embedding the Python `int()` applied to the
scaled sample value on line 55. -/
def pyTrunc (q : ℚ) : Int := q.num.tdiv q.den

/-- Embeds the loop body of `generate_coin_sound` (lines 45 to 55) computing
the sample at index `i`.  The float library functions `math.sin` and
`math.exp` are abstracted as the parameters `sin` and `exp`, since any fixed
deterministic interpretation of them gives the behaviour of the source; the
float literals appear as exact decimals. -/
def coinSample (sin exp : ℚ → ℚ) (i : Nat) : Int :=
  let t : ℚ := (i : ℚ) / 44100
  let decay := exp (-t * 12)
  let tone1 := sin (2 * piQ * 3520 * t)
  let tone2 := sin (2 * piQ * 5274 * t)
  let decay2 := if 7 / 100 < t then exp (-(t - 7 / 100) * 14) else 0
  let tone3 := sin (2 * piQ * 4186 * t)
  let sample := (tone1 * (1 / 2) + tone2 * (3 / 10)) * decay + tone3 * (2 / 5) * decay2
  pyTrunc (sample * 16000)

/-- Embeds the sample list built by `generate_coin_sound` (lines 43 to 55):
one sample for each index `i` in `range(n_samples)`. -/
def coinSamples (sin exp : ℚ → ℚ) : List Int :=
  (List.range n_samples).map (coinSample sin exp)

/-- Strict lexicographic order on `(currency, amount)` pairs used to embed
`sorted(totals.items())` (Python tuple comparison; dict keys are unique, so
ties on the key never arise from the source). -/
def pairLt (a b : String × Int) : Bool :=
  if a.1 = b.1 then decide (a.2 < b.2) else decide (a.1 < b.1)

/-- Insertion step of the stable sort modelling `sorted`. -/
def insertPair (x : String × Int) : List (String × Int) → List (String × Int)
  | [] => [x]
  | y :: ys => if pairLt x y then x :: y :: ys else y :: insertPair x ys

/-- Embeds `sorted(totals.items())` (lines 150 and 154). -/
def sortPairs : List (String × Int) → List (String × Int)
  | [] => []
  | x :: xs => insertPair x (sortPairs xs)

/-- The warning header line printed by every error menu. -/
def warnHeader : String := "⚠ Stripe"

/-- The literal separator line of the menu protocol. -/
def sep : String := "---"

/-- The dashboard action line (line 158). -/
def dashboardLine : String := "Open Stripe Dashboard | href=https://dashboard.stripe.com"

/-- The refresh action line (line 159). -/
def refreshLine : String := "Refresh | refresh=true"

/-- A single-quote character as a string, used to spell the keyring command
line of the no-credential menu. -/
def squote : String := (Char.ofNat 39).toString

/-- The fixed instructional menu printed when no API key is available
(lines 132 to 136). -/
def noKeyMenu : List String :=
  [warnHeader, sep, "No API key in GNOME Keyring",
    "Run in terminal: | font=monospace size=10",
    "secret-tool store --label=" ++ squote ++ "Stripe API Key" ++ squote ++
      " service stripe type api-key | font=monospace size=10"]

/-- The observable outcome of the body of the `try` block in `main`: either
the fetch raised an `HTTPError`, or it raised some other exception, or it
returned totals, in which case the `check_and_notify` step either succeeded
(`cacheError = none`) or raised an exception rendered as the given message
(`cacheError = some msg`). -/
inductive MainEvent where
  | fetchHTTPError (code : Nat) (reason : String)
  | fetchOtherError (msg : String)
  | fetchOK (totals : List (String × Int)) (cacheError : Option String)
deriving DecidableEq

/-- The success-path body printed by `main` (lines 144 to 155): either the
zero header with the no-transactions body, or the combined header, the dated
title, and one line per currency in sorted order. -/
def successBody (today : String) (totals : List (String × Int)) : List String :=
  if totals.isEmpty then
    ["💰 0.00", sep, "No transactions today"]
  else
    ("💰 " ++ String.intercalate " | "
        ((sortPairs totals).map (fun p => format_amount p.2 p.1))) ::
      sep ::
      ("Gross Volume — " ++ today ++ " | size=12") ::
      (sortPairs totals).map (fun p => "  " ++ format_amount p.2 p.1 ++ " | size=11")

/-- Embeds `main` (lines 129 to 168) as the list of lines it prints.
`apiKey` is the result of `get_api_key` (with `some ""` kept for fidelity to
the `if not api_key` test), `today` is the `%d.%m.%Y` date string, and `ev`
is the outcome of the `try` body.  Note that `check_and_notify` runs before
any success output is printed, so a cache-step exception yields only the
generic error menu, and the two `except` branches print no trailing action
lines. -/
def main_output (apiKey : Option String) (today : String) (ev : MainEvent) :
    List String :=
  match apiKey with
  | none => noKeyMenu
  | some k =>
    if k = "" then noKeyMenu
    else
      match ev with
      | MainEvent.fetchOK totals none =>
        successBody today totals ++ [sep, dashboardLine, refreshLine]
      | MainEvent.fetchOK _ (some msg) => [warnHeader, sep, "Error: " ++ msg]
      | MainEvent.fetchHTTPError code reason =>
        [warnHeader, sep, "HTTP Error " ++ toString code ++ ": " ++ reason]
      | MainEvent.fetchOtherError msg => [warnHeader, sep, "Error: " ++ msg]

/-- Concrete first page used to exercise the pagination theorem: one charge
of 100 minor units, with more pages to follow. -/
def pageW1 : Page := Page.mk [Transaction.mk "txn_001" "charge" "usd" 100] true

/-- Concrete final page used to exercise the pagination theorem: one payment
of 250 minor units, with no further pages. -/
def pageW2 : Page := Page.mk [Transaction.mk "txn_002" "payment" "usd" 250] false

/-- Writing a key in the dict model makes the written value readable. -/
theorem getD_dictSet_self (l : List (String × Int)) (k : String) (v : Int) :
    getD (dictSet l k v) k = v := by
  induction l with
  | nil => simp [dictSet, getD]
  | cons p rest ih =>
    obtain ⟨k2, v2⟩ := p
    by_cases h : k2 = k
    · simp [dictSet, h, getD]
    · simp [dictSet, h, getD, ih]

/-- Writing one key in the dict model leaves every other key unchanged. -/
theorem getD_dictSet_ne (l : List (String × Int)) (k : String) (v : Int)
    (c : String) (hck : c ≠ k) : getD (dictSet l k v) c = getD l c := by
  induction l with
  | nil => simp [dictSet, getD, Ne.symm hck]
  | cons p rest ih =>
    obtain ⟨k2, v2⟩ := p
    by_cases h : k2 = k
    · subst h
      simp [dictSet, getD, Ne.symm hck]
    · simp [dictSet, h, getD]
      by_cases h2 : k2 = c
      · simp [h2]
      · simp [h2, ih]

/-- One step of the aggregation loop adds the amount of the record to the
total of its uppercased currency exactly when the record qualifies. -/
theorem getD_processTx (totals : List (String × Int)) (tx : Transaction)
    (c : String) :
    getD (processTx totals tx) c =
      getD totals c + (if qualifies c tx then tx.amount else 0) := by
  unfold processTx qualifies
  by_cases ht : tx.type ∈ GROSS_VOLUME_TYPES
  · by_cases hc : tx.currency.toUpper = c
    · subst hc
      simp [ht, getD_dictSet_self]
    · rw [if_pos ht, getD_dictSet_ne]
      · simp [ht, hc]
      · exact fun hh => hc hh.symm
  · simp [ht]

/-- The aggregation loop over a list of records adds, at each display key,
exactly the sum of the amounts of the qualifying records. -/
theorem getD_processPage (txs : List Transaction) (totals : List (String × Int))
    (c : String) :
    getD (processPage totals txs) c =
      getD totals c + ((txs.filter (qualifies c)).map Transaction.amount).sum := by
  induction txs generalizing totals with
  | nil => simp [processPage]
  | cons tx rest ih =>
    have hstep : processPage totals (tx :: rest) = processPage (processTx totals tx) rest := by
      simp [processPage]
    rw [hstep, ih, getD_processTx]
    by_cases hq : qualifies c tx
    · simp [List.filter_cons, hq]
      omega
    · simp [List.filter_cons, hq]

/-- Aggregating a concatenation of record lists aggregates the first list and
then the second. -/
theorem processPage_append (totals : List (String × Int))
    (l1 l2 : List Transaction) :
    processPage totals (l1 ++ l2) = processPage (processPage totals l1) l2 := by
  simp [processPage]

/-- A non-empty record list has a last record. -/
theorem lastRecord_of_ne_nil (l : List Transaction) (h : l ≠ []) :
    ∃ tx, lastRecord l = some tx := by
  induction l with
  | nil => exact absurd rfl h
  | cons a t ih =>
    cases t with
    | nil => exact ⟨a, rfl⟩
    | cons b u =>
      obtain ⟨tx, htx⟩ := ih (by simp)
      exact ⟨tx, by simpa [lastRecord] using htx⟩

/-- The expected request list has one request per served page. -/
theorem expectedReqs_length (cursor : Option String) (pages : List Page) :
    (expectedReqs cursor pages).length = pages.length := by
  induction pages generalizing cursor with
  | nil => simp [expectedReqs]
  | cons p rest ih => simp [expectedReqs, ih]

/-- The first expected request carries the given cursor. -/
theorem expectedReqs_getElem_zero (cursor : Option String) (pages : List Page)
    (h : 0 < (expectedReqs cursor pages).length) :
    (expectedReqs cursor pages)[0] = Request.mk cursor := by
  cases pages with
  | nil => simp [expectedReqs] at h
  | cons p r => simp [expectedReqs]

/-- Every expected request after the first carries the id of the last record
of the page immediately before it. -/
theorem expectedReqs_getElem_succ (pages : List Page) (cursor : Option String)
    (i : Nat) (h1 : i + 1 < (expectedReqs cursor pages).length)
    (h2 : i < pages.length) :
    (expectedReqs cursor pages)[i + 1] =
      Request.mk ((lastRecord (pages[i]).data).map Transaction.id) := by
  induction pages generalizing cursor i with
  | nil => simp at h2
  | cons p rest ih =>
    cases i with
    | zero =>
      cases rest with
      | nil => simp [expectedReqs] at h1
      | cons q rs => simp [expectedReqs]
    | succ j =>
      have h1r : j + 1 < (expectedReqs ((lastRecord p.data).map Transaction.id) rest).length := by
        simpa [expectedReqs] using h1
      have h2r : j < rest.length := by simpa using h2
      have := ih ((lastRecord p.data).map Transaction.id) j h1r h2r
      simpa [expectedReqs] using this

/-- Running the fetch loop against well-formed served pages (every page
before the last non-empty with `has_more` true, the last with `has_more`
false) issues exactly the expected requests and returns the aggregation of
all pages. -/
theorem fetchPages_run (plast : Page) (hlast : plast.has_more = false)
    (front : List Page) (hfront : ∀ p ∈ front, p.has_more = true ∧ p.data ≠ [])
    (cursor : Option String) (totals : List (String × Int)) :
    fetchPages (front ++ [plast]) cursor totals =
      (expectedReqs cursor (front ++ [plast]),
        Except.ok (processPage totals (((front ++ [plast]).map Page.data).flatten))) := by
  induction front generalizing cursor totals with
  | nil =>
    simp [fetchPages, hlast, expectedReqs]
  | cons p f ih =>
    have hp := hfront p (by simp)
    obtain ⟨last, hlr⟩ := lastRecord_of_ne_nil p.data hp.2
    have ihh := ih (fun q hq => hfront q (by simp [hq])) (some last.id)
      (processPage totals p.data)
    have hstep : fetchPages ((p :: f) ++ [plast]) cursor totals =
        (Request.mk cursor ::
            (fetchPages (f ++ [plast]) (some last.id) (processPage totals p.data)).1,
          (fetchPages (f ++ [plast]) (some last.id) (processPage totals p.data)).2) := by
      simp [fetchPages, hp.1, hlr]
    rw [hstep, ihh]
    have hreq : expectedReqs cursor ((p :: f) ++ [plast]) =
        Request.mk cursor :: expectedReqs (some last.id) (f ++ [plast]) := by
      simp [expectedReqs, hlr]
    rw [hreq]
    have hdata : (((p :: f) ++ [plast]).map Page.data).flatten =
        p.data ++ ((f ++ [plast]).map Page.data).flatten := by
      simp
    rw [hdata, processPage_append]

/-- C1: for every sequence of transaction records of any kinds, the totals
mapping computed by the aggregation loop of `fetch_gross_volume` assigns to
each currency key exactly the sum of the amounts of the charge- and
payment-kind records whose uppercased currency equals that key, records of
every other kind contributing nothing regardless of sign; and a fetch whose
single served page holds exactly those records returns exactly this
mapping. -/
theorem fetch_aggregation_per_currency (txs : List Transaction) (c : String) :
    getD (processPage [] txs) c =
      ((txs.filter (qualifies c)).map Transaction.amount).sum ∧
    (fetch_gross_volume [Page.mk txs false]).2 = Except.ok (processPage [] txs) := by
  constructor
  · simpa [getD] using getD_processPage txs [] c
  · simp [fetch_gross_volume, fetchPages]

/-- C2: when the API serves N pages, every page before the last non-empty
with the has-more flag true and the last with it false, the fetcher issues
exactly N requests, the first without a cursor, each later one carrying the
id of the last record of the page immediately before it, and the returned
totals aggregate the qualifying transactions of all N pages. -/
theorem fetch_gross_volume_pagination (front : List Page) (plast : Page)
    (hfront : ∀ p ∈ front, p.has_more = true ∧ p.data ≠ [])
    (hlast : plast.has_more = false) :
    ∃ reqs totals,
      fetch_gross_volume (front ++ [plast]) = (reqs, Except.ok totals) ∧
      reqs.length = (front ++ [plast]).length ∧
      (∀ (h0 : 0 < reqs.length), (reqs[0]).starting_after = none) ∧
      (∀ (i : Nat) (h1 : i + 1 < reqs.length)
          (h2 : i < (front ++ [plast]).length),
        (reqs[i + 1]).starting_after =
          (lastRecord ((front ++ [plast])[i]).data).map Transaction.id) ∧
      (∀ c, getD totals c =
        ((((front ++ [plast]).map Page.data).flatten.filter (qualifies c)).map
            Transaction.amount).sum) := by
  refine ⟨expectedReqs none (front ++ [plast]),
    processPage [] (((front ++ [plast]).map Page.data).flatten), ?_, ?_, ?_, ?_, ?_⟩
  · simpa [fetch_gross_volume] using fetchPages_run plast hlast front hfront none []
  · exact expectedReqs_length none (front ++ [plast])
  · intro h0
    rw [expectedReqs_getElem_zero none (front ++ [plast]) h0]
  · intro i h1 h2
    rw [expectedReqs_getElem_succ (front ++ [plast]) none i h1 h2]
  · intro c
    simpa [getD] using
      getD_processPage (((front ++ [plast]).map Page.data).flatten) [] c

/-- Witness for C2: a concrete two-page run satisfying all hypotheses. -/
theorem fetch_gross_volume_pagination_witness :
    (∀ p ∈ [pageW1], p.has_more = true ∧ p.data ≠ []) ∧
    pageW2.has_more = false ∧
    (∃ reqs totals,
      fetch_gross_volume ([pageW1] ++ [pageW2]) = (reqs, Except.ok totals) ∧
      reqs.length = ([pageW1] ++ [pageW2]).length ∧
      (∀ (h0 : 0 < reqs.length), (reqs[0]).starting_after = none) ∧
      (∀ (i : Nat) (h1 : i + 1 < reqs.length)
          (h2 : i < ([pageW1] ++ [pageW2]).length),
        (reqs[i + 1]).starting_after =
          (lastRecord (([pageW1] ++ [pageW2])[i]).data).map Transaction.id) ∧
      (∀ c, getD totals c =
        ((((([pageW1] ++ [pageW2]).map Page.data).flatten).filter (qualifies c)).map
            Transaction.amount).sum)) :=
  ⟨by decide, rfl, fetch_gross_volume_pagination [pageW1] pageW2 (by decide) rfl⟩

/-- C10: a served page with the has-more flag true and an empty record list
makes the fetch loop fail immediately with the index error of
`data["data"][-1]`, after issuing exactly the one request for that page and
independently of any further pages the API would serve: the loop never
re-issues a request or continues past a page without a last record. -/
theorem fetch_empty_page_index_error (rest : List Page) (cursor : Option String)
    (totals : List (String × Int)) :
    fetchPages (Page.mk [] true :: rest) cursor totals =
      ([Request.mk cursor], Except.error FetchError.indexError) ∧
    (fetch_gross_volume (Page.mk [] true :: rest)).2 =
      Except.error FetchError.indexError := by
  constructor
  · simp [fetchPages, lastRecord]
  · simp [fetch_gross_volume, fetchPages, lastRecord]

/-- C3 counterexample: `format_amount` does not uppercase the currency
argument, so on the lowercase input of the claimed example it returns the
lowercase rendering, not the claimed uppercase one. -/
theorem format_amount_no_uppercase :
    format_amount 123456 "usd" = "1,234.56 usd" ∧
    format_amount 123456 "usd" ≠ "1,234.56 USD" := by
  constructor
  · decide
  · decide

/-- C3 as amended: `format_amount` divides the minor-units integer by 100
and renders it as a thousands-grouped decimal with exactly two fraction
digits (negatives with a leading minus and correct grouping), followed by
the currency code exactly as passed, without normalizing its case; callers
pass already-uppercased codes, so the uppercase display strings of the spec
arise for uppercase inputs. -/
theorem format_amount_examples :
    format_amount 123456 "usd" = "1,234.56 usd" ∧
    format_amount 0 "eur" = "0.00 eur" ∧
    format_amount (-500) "jpy" = "-5.00 jpy" ∧
    format_amount 123456 "USD" = "1,234.56 USD" ∧
    format_amount 0 "EUR" = "0.00 EUR" ∧
    format_amount (-500) "JPY" = "-5.00 JPY" ∧
    format_amount (-123456789) "USD" = "-1,234,567.89 USD" := by
  refine ⟨?_, ?_, ?_, ?_, ?_, ?_, ?_⟩ <;> decide

/-- C4: the sound is triggered exactly when the cross-currency sum exceeds
the previous cached value and that previous value is positive, where a
missing or unparsable cache collapses to a previous value of 0; in
particular the four concrete scenarios of the claim behave as stated, and
unparsable content suppresses the sound. -/
theorem check_and_notify_threshold :
    (∀ (totals : List (String × Int)) (cache : Option String),
        (check_and_notify totals cache).1 = true ↔
          readPrevious cache < (totals.map Prod.snd).sum ∧
            0 < readPrevious cache) ∧
    (check_and_notify [("USD", 500)] none).1 = false ∧
    (check_and_notify [("USD", 700)] (some "500")).1 = true ∧
    (check_and_notify [("USD", 700)] (some "700")).1 = false ∧
    (check_and_notify [("USD", 300)] (some "700")).1 = false ∧
    (check_and_notify [("USD", 500)] (some "oops")).1 = false := by
  refine ⟨?_, by decide, by decide, by decide, by decide, by decide⟩
  intro totals cache
  simp [check_and_notify]

/-- C5 counterexample: in the HTTP-error state the renderer prints only the
warning header, the separator, and the status line; the output does not end
with the trailing separator and the two action lines, contradicting the
claim that every non-fatal-credential state does. -/
theorem renderer_http_error_no_action_lines :
    main_output (some "sk_test") "12.10.2025"
        (MainEvent.fetchHTTPError 500 "Internal Server Error") =
      [warnHeader, sep, "HTTP Error 500: Internal Server Error"] ∧
    ¬ [sep, dashboardLine, refreshLine] <:+
        main_output (some "sk_test") "12.10.2025"
          (MainEvent.fetchHTTPError 500 "Internal Server Error") := by
  constructor
  · decide
  · decide

/-- C5 as amended: the two fetch-success states end with the trailing
separator followed by the dashboard and refresh action lines, while the two
fetch-failure states print only the warning header, the separator, and one
error line, with no trailing action lines. -/
theorem renderer_trailing_lines_amended :
    (∀ (k today : String) (totals : List (String × Int)), k ≠ "" →
        main_output (some k) today (MainEvent.fetchOK totals none) =
          successBody today totals ++ [sep, dashboardLine, refreshLine]) ∧
    (∀ (k today reason : String) (code : Nat), k ≠ "" →
        main_output (some k) today (MainEvent.fetchHTTPError code reason) =
          [warnHeader, sep, "HTTP Error " ++ toString code ++ ": " ++ reason]) ∧
    (∀ (k today msg : String), k ≠ "" →
        main_output (some k) today (MainEvent.fetchOtherError msg) =
          [warnHeader, sep, "Error: " ++ msg]) := by
  refine ⟨?_, ?_, ?_⟩
  · intro k today totals hk
    simp [main_output, hk]
  · intro k today reason code hk
    simp [main_output, hk]
  · intro k today msg hk
    simp [main_output, hk]

/-- Witness for the amended C5: a concrete success state ends with the
trailing separator and the two action lines. -/
theorem renderer_trailing_lines_amended_witness :
    ("sk_test" ≠ "") ∧
    main_output (some "sk_test") "01.01.2026"
        (MainEvent.fetchOK [("USD", 500)] none) =
      successBody "01.01.2026" [("USD", 500)] ++ [sep, dashboardLine, refreshLine] :=
  ⟨by decide,
    renderer_trailing_lines_amended.1 "sk_test" "01.01.2026" [("USD", 500)]
      (by decide)⟩

/-- C6: the string written back to the cache file is always the decimal
rendering of the current cross-currency sum, whatever the prior cache held
and whether or not the sound fired, including on equal or decreasing
totals. -/
theorem cache_overwritten_with_sum :
    (∀ (totals : List (String × Int)) (cache : Option String),
        (check_and_notify totals cache).2 = toString ((totals.map Prod.snd).sum)) ∧
    (check_and_notify [("USD", 300)] (some "700")).2 = "300" ∧
    (check_and_notify [("USD", 700)] (some "700")).2 = "700" ∧
    (check_and_notify [("EUR", 5), ("USD", 7)] none).2 = "12" := by
  refine ⟨fun totals cache => rfl, by decide, by decide, by decide⟩

/-- C7: `get_api_key` is a total function of the subprocess outcome (it never
raises): every raising or empty-output or whitespace-only-output behaviour
yields `none`, and a completed run with non-empty trimmed output yields
exactly that trimmed string. -/
theorem get_api_key_no_raise :
    get_api_key SubprocessOutcome.raised = none ∧
    (∀ s, pyStrip s = "" →
      get_api_key (SubprocessOutcome.completed s) = none) ∧
    (∀ s, pyStrip s ≠ "" →
      get_api_key (SubprocessOutcome.completed s) = some (pyStrip s)) := by
  refine ⟨rfl, ?_, ?_⟩
  · intro s h
    simp [get_api_key, h]
  · intro s h
    simp [get_api_key, h]

/-- Witness for C7: a whitespace-only completed run yields absence, and a
completed run whose stripped output is non-empty yields exactly that
stripped string. -/
theorem get_api_key_no_raise_witness :
    (pyStrip "  \n" = "") ∧
    get_api_key (SubprocessOutcome.completed "  \n") = none ∧
    (pyStrip " sk_live_abc \n" ≠ "") ∧
    get_api_key (SubprocessOutcome.completed " sk_live_abc \n") =
      some (pyStrip " sk_live_abc \n") :=
  ⟨by decide, get_api_key_no_raise.2.1 "  \n" (by decide), by decide,
    get_api_key_no_raise.2.2 " sk_live_abc \n" (by decide)⟩

/-- C8: when the fetch succeeds but the cache-update step raises, the
renderer prints exactly the generic-error menu and none of the successful
totals output, since `check_and_notify` runs before any success line is
printed. -/
theorem cache_error_masks_success (k today msg : String)
    (totals : List (String × Int)) (hk : k ≠ "") :
    main_output (some k) today (MainEvent.fetchOK totals (some msg)) =
      [warnHeader, sep, "Error: " ++ msg] := by
  simp [main_output, hk]

/-- Witness for C8: a concrete cache-write failure after a successful fetch
shows only the generic-error menu. -/
theorem cache_error_masks_success_witness :
    ("sk_live" ≠ "") ∧
    main_output (some "sk_live") "01.01.2026"
        (MainEvent.fetchOK [("USD", 500)] (some "read-only file system")) =
      [warnHeader, sep, "Error: " ++ "read-only file system"] :=
  ⟨by decide,
    cache_error_masks_success "sk_live" "01.01.2026" "read-only file system"
      [("USD", 500)] (by decide)⟩

/-- C9: the synthesized sample data is a deterministic pure function of the
fixed parameters: for every (deterministic) interpretation of the float
library functions, two invocations yield identical sample lists, and each
sample is a pure function of its own index with no cross-sample or external
state. -/
theorem generate_coin_sound_deterministic (sin exp : ℚ → ℚ) :
    coinSamples sin exp = coinSamples sin exp ∧
    ∀ (i : Nat) (h : i < (coinSamples sin exp).length),
      (coinSamples sin exp)[i] = coinSample sin exp i := by
  refine ⟨rfl, ?_⟩
  intro i h
  simp [coinSamples]

/-- Witness for C9: the first sample of a concrete interpretation equals the
pure per-index sample function at index 0. -/
theorem generate_coin_sound_deterministic_witness :
    (coinSamples (fun _ => 0) (fun _ => 0)).get
        ⟨0, by
          simp only [coinSamples, List.length_map, List.length_range, n_samples]
          omega⟩ =
      coinSample (fun _ => 0) (fun _ => 0) 0 := by
  have h : 0 < (coinSamples (fun _ => 0) (fun _ => 0)).length := by
    simp only [coinSamples, List.length_map, List.length_range, n_samples]
    omega
  exact (generate_coin_sound_deterministic (fun _ => 0) (fun _ => 0)).2 0 h

end StripeGross
